import Mathlib

/-
Verification of piston_mini_client/failhandlers.py against its
natural-language specification.

The module is a shallow embedding of the Python source: Python values that
can appear as status codes, bodies or environment lookups are modelled by
`PyVal`; an httplib2 response-header dict is a list of key/value pairs with
first-match lookup; each fail handler's `handle` method becomes a pure Lean
function, with raised exceptions modelled by `Except`.
-/

namespace PistonMiniClient

/-- A Python value as it occurs in this module: None, a string, an integer,
or a boolean. -/
inductive PyVal where
  | none : PyVal
  | str : String → PyVal
  | int : Int → PyVal
  | bool : Bool → PyVal
deriving DecidableEq

/-- Python `str()` of a value, as used by the `%s` format specifier. -/
def pyStr : PyVal → String
  | PyVal.none => "None"
  | PyVal.str s => s
  | PyVal.int n => toString n
  | PyVal.bool b => if b then "True" else "False"

/-- Python `repr()` of a value, as used when a dict is converted to a
string (strings are quoted). -/
def pyRepr : PyVal → String
  | PyVal.none => "None"
  | PyVal.str s => "\x27" ++ s ++ "\x27"
  | PyVal.int n => toString n
  | PyVal.bool b => if b then "True" else "False"

/-- The httplib2 response-header dict passed to a fail handler: keys mapped
to values, first match wins. -/
abbrev Response := List (String × PyVal)

/-- Python `response.get(key)`: the value at the key, or None when the key
is absent. -/
def dictGet : Response → String → PyVal
  | [], _ => PyVal.none
  | p :: rest, k => if p.1 = k then p.2 else dictGet rest k

/-- Python `key in response`: key containment. -/
def hasKey : Response → String → Bool
  | [], _ => false
  | p :: rest, k => if p.1 = k then true else hasKey rest k

/-- Python `str()` of the response dict, as interpolated into error
messages by `'%s: %s' % (status, response)`. -/
def dictStr (r : Response) : String :=
  "\x7b" ++ String.intercalate ", "
    (r.map (fun p => "\x27" ++ p.1 ++ "\x27: " ++ pyRepr p.2)) ++ "\x7d"

/-- Python truthiness of the values `os.environ.get` can produce here. -/
def truthy : PyVal → Bool
  | PyVal.none => false
  | PyVal.str s => !s.isEmpty
  | PyVal.int n => n != 0
  | PyVal.bool b => b

/-- `os.environ.get('PISTON_MINI_CLIENT_DEBUG', False)`: the variable's
string value when set, the Python boolean False otherwise. -/
def debugOf : Option String → PyVal
  | Option.some s => PyVal.str s
  | Option.none => PyVal.bool false

/-- APIError: message, offending body (None when omitted), and the debug
flag sampled from the environment at construction time. -/
structure APIError where
  msg : String
  body : PyVal
  debug : PyVal
deriving DecidableEq

/-- `APIError.__init__(msg, body=None)`: stores msg and body and samples
the PISTON_MINI_CLIENT_DEBUG environment variable once. -/
def APIError.fromEnv (env : Option String) (msg : String) (body : PyVal) :
    APIError :=
  ⟨msg, body, debugOf env⟩

/-- `APIError.__str__`: message plus received body when the debug flag is
truthy, just the message otherwise. -/
def APIError.toStr (e : APIError) : String :=
  if truthy e.debug then
    e.msg ++ "\nReceived body:\n" ++ pyStr e.body
  else
    e.msg

/-- The exception classes this module can raise. The four specific classes
are subclasses of APIError differing only by type tag. -/
inductive ErrorClass where
  | apiError : ErrorClass
  | badRequestError : ErrorClass
  | unauthorizedError : ErrorClass
  | notFoundError : ErrorClass
  | internalServerErrorError : ErrorClass
deriving DecidableEq

/-- A raised exception: its class together with the APIError payload
(message, body, debug flag) shared by every class in the hierarchy. -/
structure Raised where
  cls : ErrorClass
  err : APIError
deriving DecidableEq

/-- A fail-handler instance. `BaseFailHandler.__init__` stores none of its
arguments, so the instance type has no fields. -/
structure BaseFailHandler where
deriving DecidableEq

/-- `BaseFailHandler.__init__(url, method, body, headers)`: accepts the
four arguments and discards them. -/
def BaseFailHandler.init (url method body headers : PyVal) :
    BaseFailHandler :=
  BaseFailHandler.mk

/-- `BaseFailHandler.success_status_codes = ['200', '201', '204', '304']`. -/
def success_status_codes : List PyVal :=
  [PyVal.str "200", PyVal.str "201", PyVal.str "204", PyVal.str "304"]

/-- `BaseFailHandler.was_error(response)`:
`response.get('status') not in self.success_status_codes`. -/
def BaseFailHandler.was_error (self : BaseFailHandler) (response : Response) :
    Bool :=
  !(decide (dictGet response "status" ∈ success_status_codes))

/-- `ExceptionFailHandler.handle(response, body)`: raises APIError when the
status key is missing or when `was_error`, otherwise returns the body. -/
def ExceptionFailHandler.handle (self : BaseFailHandler)
    (env : Option String) (response : Response) (body : PyVal) :
    Except Raised PyVal :=
  if !(hasKey response "status") then
    Except.error ⟨ErrorClass.apiError,
      APIError.fromEnv env "No status code in response" PyVal.none⟩
  else if self.was_error response then
    Except.error ⟨ErrorClass.apiError,
      APIError.fromEnv env
        (pyStr (dictGet response "status") ++ ": " ++ dictStr response) body⟩
  else
    Except.ok body

/-- `NoneFailHandler.handle(response, body)`: None on failure, the body
otherwise; never raises. -/
def NoneFailHandler.handle (self : BaseFailHandler) (response : Response)
    (body : PyVal) : PyVal :=
  if self.was_error response then PyVal.none else body

/-- Result of `DictFailHandler.handle`: either the body passed through
unchanged, or the diagnostic dict with keys 'response' and 'body'. -/
inductive DictResult where
  | plain : PyVal → DictResult
  | errorDict : Response → PyVal → DictResult
deriving DecidableEq

/-- `DictFailHandler.handle(response, body)`: the two-key diagnostic dict
on failure, the body otherwise; never raises. -/
def DictFailHandler.handle (self : BaseFailHandler) (response : Response)
    (body : PyVal) : DictResult :=
  if self.was_error response then
    DictResult.errorDict response body
  else
    DictResult.plain body

/-- `MultiExceptionFailHandler.exceptions`: the status-to-class dict. -/
def MultiExceptionFailHandler.exceptions : List (PyVal × ErrorClass) :=
  [(PyVal.str "400", ErrorClass.badRequestError),
   (PyVal.str "401", ErrorClass.unauthorizedError),
   (PyVal.str "404", ErrorClass.notFoundError),
   (PyVal.str "500", ErrorClass.internalServerErrorError)]

/-- `self.exceptions.get(status, APIError)`: the mapped class, defaulting
to the generic APIError. -/
def exceptionsGet (status : PyVal) : ErrorClass :=
  match MultiExceptionFailHandler.exceptions.find? (fun p => p.1 == status) with
  | Option.some p => p.2
  | Option.none => ErrorClass.apiError

/-- `MultiExceptionFailHandler.handle(response, body)`: on failure raises
the class mapped from `response.get('status')` with message
`'%s: %s' % (status, response)` and the body; otherwise returns the body. -/
def MultiExceptionFailHandler.handle (self : BaseFailHandler)
    (env : Option String) (response : Response) (body : PyVal) :
    Except Raised PyVal :=
  if self.was_error response then
    Except.error ⟨exceptionsGet (dictGet response "status"),
      APIError.fromEnv env
        (pyStr (dictGet response "status") ++ ": " ++ dictStr response) body⟩
  else
    Except.ok body

/-- A key absent from the dict looks up to None. -/
theorem hasKey_false_dictGet (r : Response) (k : String)
    (h : hasKey r k = false) : dictGet r k = PyVal.none := by
  induction r with
  | nil => rfl
  | cons p t ih =>
    by_cases hk : p.1 = k
    · simp [hasKey, hk] at h
    · simp only [dictGet, hk, if_false]
      exact ih (by simpa [hasKey, hk] using h)

/-- A lookup that produced something other than None found its key. -/
theorem dictGet_ne_none_hasKey (r : Response) (k : String)
    (h : dictGet r k ≠ PyVal.none) : hasKey r k = true := by
  induction r with
  | nil => exact absurd rfl h
  | cons p t ih =>
    by_cases hk : p.1 = k
    · simp [hasKey, hk]
    · simp only [hasKey, hk, if_false]
      exact ih (by simpa [dictGet, hk] using h)

/-- was_error is false exactly when the status lookup is in the success
list. -/
theorem was_error_eq_false_iff (self : BaseFailHandler) (r : Response) :
    self.was_error r = false ↔
      dictGet r "status" ∈ success_status_codes := by
  simp [BaseFailHandler.was_error]

/-- C1 counterexample: the claim says a descriptor with no status code
makes was_error return false, but on the empty descriptor (no status key)
was_error returns true: `None not in ['200','201','204','304']`. -/
theorem C1_absent_status_is_error :
    BaseFailHandler.was_error BaseFailHandler.mk [] = true := by decide

/-- C1 (amended): was_error returns false iff the status lookup (which
yields None when the key is absent) is a member of the success list; in
particular a descriptor with no status key makes was_error return true in
every variant, since None is not in the list. -/
theorem C1_was_error_characterisation (self : BaseFailHandler)
    (r : Response) :
    (self.was_error r = false ↔
      dictGet r "status" ∈ success_status_codes)
    ∧ (hasKey r "status" = false → self.was_error r = true) := by
  refine ⟨was_error_eq_false_iff self r, fun h => ?_⟩
  have hg := hasKey_false_dictGet r "status" h
  simp [BaseFailHandler.was_error, hg, success_status_codes]

/-- C1 witness: the amended characterisation evaluated on a concrete
status-free descriptor. -/
theorem C1_was_error_characterisation_witness :
    hasKey [("x-date", PyVal.str "now")] "status" = false ∧
      BaseFailHandler.was_error BaseFailHandler.mk
        [("x-date", PyVal.str "now")] = true :=
  ⟨by decide,
    (C1_was_error_characterisation BaseFailHandler.mk
      [("x-date", PyVal.str "now")]).2 (by decide)⟩

/-- C2: for a status code in the success list ['200','201','204','304'],
was_error is false and all four handlers return the original body
unchanged without raising. -/
theorem C2_success_returns_body (self : BaseFailHandler)
    (env : Option String) (r : Response) (body : PyVal)
    (h : dictGet r "status" ∈ success_status_codes) :
    self.was_error r = false
    ∧ ExceptionFailHandler.handle self env r body = Except.ok body
    ∧ NoneFailHandler.handle self r body = body
    ∧ DictFailHandler.handle self r body = DictResult.plain body
    ∧ MultiExceptionFailHandler.handle self env r body = Except.ok body := by
  have hwe : self.was_error r = false := (was_error_eq_false_iff self r).2 h
  have hne : dictGet r "status" ≠ PyVal.none := by
    intro hn
    rw [hn] at h
    simp [success_status_codes] at h
  have hk : hasKey r "status" = true := dictGet_ne_none_hasKey r "status" hne
  refine ⟨hwe, ?_, ?_, ?_, ?_⟩
  · simp [ExceptionFailHandler.handle, hk, hwe]
  · simp [NoneFailHandler.handle, hwe]
  · simp [DictFailHandler.handle, hwe]
  · simp [MultiExceptionFailHandler.handle, hwe]

/-- C2 witness: the success behaviour evaluated at status '200' with a
concrete body. -/
theorem C2_success_returns_body_witness :
    dictGet [("status", PyVal.str "200")] "status" ∈ success_status_codes
    ∧ (BaseFailHandler.was_error BaseFailHandler.mk
        [("status", PyVal.str "200")] = false
      ∧ ExceptionFailHandler.handle BaseFailHandler.mk Option.none
          [("status", PyVal.str "200")] (PyVal.str "payload")
        = Except.ok (PyVal.str "payload")
      ∧ NoneFailHandler.handle BaseFailHandler.mk
          [("status", PyVal.str "200")] (PyVal.str "payload")
        = PyVal.str "payload"
      ∧ DictFailHandler.handle BaseFailHandler.mk
          [("status", PyVal.str "200")] (PyVal.str "payload")
        = DictResult.plain (PyVal.str "payload")
      ∧ MultiExceptionFailHandler.handle BaseFailHandler.mk Option.none
          [("status", PyVal.str "200")] (PyVal.str "payload")
        = Except.ok (PyVal.str "payload")) :=
  ⟨by decide,
    C2_success_returns_body BaseFailHandler.mk Option.none
      [("status", PyVal.str "200")] (PyVal.str "payload") (by decide)⟩

/-- C3: ExceptionFailHandler.handle raises APIError with message exactly
"No status code in response" and body None when the status key is missing;
raises APIError "<status>: <descriptor>" carrying the body when was_error
holds; and otherwise returns the body unchanged. -/
theorem C3_exception_handler (self : BaseFailHandler) (env : Option String)
    (r : Response) (body : PyVal) :
    (hasKey r "status" = false →
      ExceptionFailHandler.handle self env r body =
        Except.error ⟨ErrorClass.apiError,
          APIError.fromEnv env "No status code in response" PyVal.none⟩)
    ∧ (hasKey r "status" = true → self.was_error r = true →
      ExceptionFailHandler.handle self env r body =
        Except.error ⟨ErrorClass.apiError,
          APIError.fromEnv env
            (pyStr (dictGet r "status") ++ ": " ++ dictStr r) body⟩)
    ∧ (hasKey r "status" = true → self.was_error r = false →
      ExceptionFailHandler.handle self env r body = Except.ok body) := by
  refine ⟨fun h => ?_, fun hk hw => ?_, fun hk hw => ?_⟩
  · simp [ExceptionFailHandler.handle, h]
  · simp [ExceptionFailHandler.handle, hk, hw]
  · simp [ExceptionFailHandler.handle, hk, hw]

/-- C3 witness: the missing-status branch evaluated on the empty
descriptor, yielding the exact message and a None body. -/
theorem C3_exception_handler_witness :
    hasKey [] "status" = false ∧
      ExceptionFailHandler.handle BaseFailHandler.mk Option.none []
          (PyVal.str "b") =
        Except.error ⟨ErrorClass.apiError,
          APIError.fromEnv Option.none "No status code in response"
            PyVal.none⟩ :=
  ⟨by decide,
    (C3_exception_handler BaseFailHandler.mk Option.none []
      (PyVal.str "b")).1 (by decide)⟩

/-- C4: MultiExceptionFailHandler.handle raises the class mapped from the
status code — '400' BadRequestError, '401' UnauthorizedError, '404'
NotFoundError, '500' InternalServerErrorError, anything else the generic
APIError — with message "<status>: <descriptor>" and the body attached
(every class shares the APIError message/body payload), and returns the
body unchanged when was_error is false. -/
theorem C4_multi_exception_dispatch (self : BaseFailHandler)
    (env : Option String) (r : Response) (body : PyVal) :
    (self.was_error r = true →
      MultiExceptionFailHandler.handle self env r body =
        Except.error ⟨exceptionsGet (dictGet r "status"),
          APIError.fromEnv env
            (pyStr (dictGet r "status") ++ ": " ++ dictStr r) body⟩)
    ∧ (self.was_error r = false →
      MultiExceptionFailHandler.handle self env r body = Except.ok body)
    ∧ exceptionsGet (PyVal.str "400") = ErrorClass.badRequestError
    ∧ exceptionsGet (PyVal.str "401") = ErrorClass.unauthorizedError
    ∧ exceptionsGet (PyVal.str "404") = ErrorClass.notFoundError
    ∧ exceptionsGet (PyVal.str "500") = ErrorClass.internalServerErrorError
    ∧ (∀ s : PyVal, s ≠ PyVal.str "400" → s ≠ PyVal.str "401" →
        s ≠ PyVal.str "404" → s ≠ PyVal.str "500" →
        exceptionsGet s = ErrorClass.apiError) := by
  refine ⟨fun hw => ?_, fun hw => ?_, by decide, by decide, by decide,
    by decide, fun s h1 h2 h3 h4 => ?_⟩
  · simp [MultiExceptionFailHandler.handle, hw]
  · simp [MultiExceptionFailHandler.handle, hw]
  · have e1 : (PyVal.str "400" == s) = false :=
      beq_eq_false_iff_ne.mpr (Ne.symm h1)
    have e2 : (PyVal.str "401" == s) = false :=
      beq_eq_false_iff_ne.mpr (Ne.symm h2)
    have e3 : (PyVal.str "404" == s) = false :=
      beq_eq_false_iff_ne.mpr (Ne.symm h3)
    have e4 : (PyVal.str "500" == s) = false :=
      beq_eq_false_iff_ne.mpr (Ne.symm h4)
    simp [exceptionsGet, MultiExceptionFailHandler.exceptions, List.find?,
      e1, e2, e3, e4]

/-- C4 witness: the dispatch evaluated at status '503', exercising the
generic-APIError default together with the failure equation. -/
theorem C4_multi_exception_dispatch_witness :
    BaseFailHandler.was_error BaseFailHandler.mk
        [("status", PyVal.str "503")] = true
    ∧ MultiExceptionFailHandler.handle BaseFailHandler.mk Option.none
        [("status", PyVal.str "503")] (PyVal.str "b") =
      Except.error ⟨exceptionsGet
          (dictGet [("status", PyVal.str "503")] "status"),
        APIError.fromEnv Option.none
          (pyStr (dictGet [("status", PyVal.str "503")] "status") ++ ": "
            ++ dictStr [("status", PyVal.str "503")]) (PyVal.str "b")⟩
    ∧ exceptionsGet (PyVal.str "503") = ErrorClass.apiError :=
  ⟨by decide,
    (C4_multi_exception_dispatch BaseFailHandler.mk Option.none
      [("status", PyVal.str "503")] (PyVal.str "b")).1 (by decide),
    (C4_multi_exception_dispatch BaseFailHandler.mk Option.none
      [("status", PyVal.str "503")] (PyVal.str "b")).2.2.2.2.2.2
      (PyVal.str "503") (by decide) (by decide) (by decide) (by decide)⟩

/-- C5: NoneFailHandler.handle returns None when was_error holds and the
input body unchanged otherwise; its return type shows it never raises. -/
theorem C5_none_handler (self : BaseFailHandler) (r : Response)
    (body : PyVal) :
    (self.was_error r = true →
      NoneFailHandler.handle self r body = PyVal.none)
    ∧ (self.was_error r = false →
      NoneFailHandler.handle self r body = body) := by
  refine ⟨fun hw => ?_, fun hw => ?_⟩ <;>
    simp [NoneFailHandler.handle, hw]

/-- C5 witness: the failure branch evaluated at status '500'. -/
theorem C5_none_handler_witness :
    BaseFailHandler.was_error BaseFailHandler.mk
        [("status", PyVal.str "500")] = true
    ∧ NoneFailHandler.handle BaseFailHandler.mk
        [("status", PyVal.str "500")] (PyVal.str "b") = PyVal.none :=
  ⟨by decide,
    (C5_none_handler BaseFailHandler.mk [("status", PyVal.str "500")]
      (PyVal.str "b")).1 (by decide)⟩

/-- C6: DictFailHandler.handle returns the two-field diagnostic value
holding the original descriptor and body when was_error holds, and passes
the input body through unchanged otherwise; its return type shows it never
raises. -/
theorem C6_dict_handler (self : BaseFailHandler) (r : Response)
    (body : PyVal) :
    (self.was_error r = true →
      DictFailHandler.handle self r body = DictResult.errorDict r body)
    ∧ (self.was_error r = false →
      DictFailHandler.handle self r body = DictResult.plain body) := by
  refine ⟨fun hw => ?_, fun hw => ?_⟩ <;>
    simp [DictFailHandler.handle, hw]

/-- C6 witness: the failure branch evaluated at status '400'. -/
theorem C6_dict_handler_witness :
    BaseFailHandler.was_error BaseFailHandler.mk
        [("status", PyVal.str "400")] = true
    ∧ DictFailHandler.handle BaseFailHandler.mk
        [("status", PyVal.str "400")] (PyVal.str "b")
      = DictResult.errorDict [("status", PyVal.str "400")]
          (PyVal.str "b") :=
  ⟨by decide,
    (C6_dict_handler BaseFailHandler.mk [("status", PyVal.str "400")]
      (PyVal.str "b")).1 (by decide)⟩

/-- C7: with no status key, was_error is true, NoneFailHandler returns
None, DictFailHandler returns the diagnostic dict, and
MultiExceptionFailHandler raises the generic APIError with message
"None: <descriptor>" carrying the body. -/
theorem C7_absent_status_behaviour (self : BaseFailHandler)
    (env : Option String) (r : Response) (body : PyVal)
    (h : hasKey r "status" = false) :
    self.was_error r = true
    ∧ NoneFailHandler.handle self r body = PyVal.none
    ∧ DictFailHandler.handle self r body = DictResult.errorDict r body
    ∧ MultiExceptionFailHandler.handle self env r body =
        Except.error ⟨ErrorClass.apiError,
          APIError.fromEnv env ("None: " ++ dictStr r) body⟩ := by
  have hg := hasKey_false_dictGet r "status" h
  have hw : self.was_error r = true := by
    simp [BaseFailHandler.was_error, hg, success_status_codes]
  refine ⟨hw, ?_, ?_, ?_⟩
  · simp [NoneFailHandler.handle, hw]
  · simp [DictFailHandler.handle, hw]
  · have he : exceptionsGet PyVal.none = ErrorClass.apiError := by decide
    simp [MultiExceptionFailHandler.handle, hw, hg, pyStr, he]

/-- C7 witness: the absent-status behaviour evaluated on a descriptor with
only an unrelated header. -/
theorem C7_absent_status_behaviour_witness :
    hasKey [("etag", PyVal.str "abc")] "status" = false
    ∧ (BaseFailHandler.was_error BaseFailHandler.mk
          [("etag", PyVal.str "abc")] = true
      ∧ NoneFailHandler.handle BaseFailHandler.mk
          [("etag", PyVal.str "abc")] (PyVal.str "b") = PyVal.none
      ∧ DictFailHandler.handle BaseFailHandler.mk
          [("etag", PyVal.str "abc")] (PyVal.str "b")
        = DictResult.errorDict [("etag", PyVal.str "abc")] (PyVal.str "b")
      ∧ MultiExceptionFailHandler.handle BaseFailHandler.mk Option.none
          [("etag", PyVal.str "abc")] (PyVal.str "b") =
        Except.error ⟨ErrorClass.apiError,
          APIError.fromEnv Option.none
            ("None: " ++ dictStr [("etag", PyVal.str "abc")])
            (PyVal.str "b")⟩) :=
  ⟨by decide,
    C7_absent_status_behaviour BaseFailHandler.mk Option.none
      [("etag", PyVal.str "abc")] (PyVal.str "b") (by decide)⟩

/-- C8: an integer-valued status code — including 200, 201, 204 and 304 —
is never in the string success list, so was_error is true and every
variant takes its failure branch; a success classification forces the
status to be a string. -/
theorem C8_integer_status_is_failure (self : BaseFailHandler)
    (env : Option String) (r : Response) (body : PyVal) :
    (∀ n : Int, dictGet r "status" = PyVal.int n →
      self.was_error r = true
      ∧ ExceptionFailHandler.handle self env r body =
          Except.error ⟨ErrorClass.apiError,
            APIError.fromEnv env (toString n ++ ": " ++ dictStr r) body⟩
      ∧ NoneFailHandler.handle self r body = PyVal.none
      ∧ DictFailHandler.handle self r body = DictResult.errorDict r body
      ∧ MultiExceptionFailHandler.handle self env r body =
          Except.error ⟨ErrorClass.apiError,
            APIError.fromEnv env (toString n ++ ": " ++ dictStr r) body⟩)
    ∧ (self.was_error r = false →
        ∃ s : String, dictGet r "status" = PyVal.str s) := by
  constructor
  · intro n hg
    have hw : self.was_error r = true := by
      simp [BaseFailHandler.was_error, hg, success_status_codes]
    have hk : hasKey r "status" = true :=
      dictGet_ne_none_hasKey r "status" (by simp [hg])
    have he : exceptionsGet (PyVal.int n) = ErrorClass.apiError := by
      have e1 : (PyVal.str "400" == PyVal.int n) = false :=
        beq_eq_false_iff_ne.mpr (by simp)
      have e2 : (PyVal.str "401" == PyVal.int n) = false :=
        beq_eq_false_iff_ne.mpr (by simp)
      have e3 : (PyVal.str "404" == PyVal.int n) = false :=
        beq_eq_false_iff_ne.mpr (by simp)
      have e4 : (PyVal.str "500" == PyVal.int n) = false :=
        beq_eq_false_iff_ne.mpr (by simp)
      simp [exceptionsGet, MultiExceptionFailHandler.exceptions,
        List.find?, e1, e2, e3, e4]
    refine ⟨hw, ?_, ?_, ?_, ?_⟩
    · simp [ExceptionFailHandler.handle, hk, hw, hg, pyStr]
    · simp [NoneFailHandler.handle, hw]
    · simp [DictFailHandler.handle, hw]
    · simp [MultiExceptionFailHandler.handle, hw, hg, pyStr, he]
  · intro hw
    have hm := (was_error_eq_false_iff self r).1 hw
    simp only [success_status_codes, List.mem_cons,
      List.not_mem_nil, or_false] at hm
    rcases hm with h | h | h | h <;> exact ⟨_, h⟩

/-- C8 witness: the integer status 200 evaluated concretely: was_error is
true and the silent handler discards the body. -/
theorem C8_integer_status_is_failure_witness :
    dictGet [("status", PyVal.int 200)] "status" = PyVal.int 200
    ∧ (BaseFailHandler.was_error BaseFailHandler.mk
          [("status", PyVal.int 200)] = true
      ∧ ExceptionFailHandler.handle BaseFailHandler.mk Option.none
          [("status", PyVal.int 200)] (PyVal.str "b") =
        Except.error ⟨ErrorClass.apiError,
          APIError.fromEnv Option.none
            (toString (200 : Int) ++ ": "
              ++ dictStr [("status", PyVal.int 200)]) (PyVal.str "b")⟩
      ∧ NoneFailHandler.handle BaseFailHandler.mk
          [("status", PyVal.int 200)] (PyVal.str "b") = PyVal.none
      ∧ DictFailHandler.handle BaseFailHandler.mk
          [("status", PyVal.int 200)] (PyVal.str "b")
        = DictResult.errorDict [("status", PyVal.int 200)] (PyVal.str "b")
      ∧ MultiExceptionFailHandler.handle BaseFailHandler.mk Option.none
          [("status", PyVal.int 200)] (PyVal.str "b") =
        Except.error ⟨ErrorClass.apiError,
          APIError.fromEnv Option.none
            (toString (200 : Int) ++ ": "
              ++ dictStr [("status", PyVal.int 200)]) (PyVal.str "b")⟩) :=
  ⟨by decide,
    (C8_integer_status_is_failure BaseFailHandler.mk Option.none
      [("status", PyVal.int 200)] (PyVal.str "b")).1 200 (by decide)⟩

/-- C9: the constructor discards url, method, body and headers, so two
fresh instances built from arbitrary constructor arguments classify
identical inputs identically for every variant; in this pure embedding no
invocation can mutate the descriptor or the body. -/
theorem C9_stateless_determinism (u1 m1 b1 hd1 u2 m2 b2 hd2 : PyVal)
    (env : Option String) (r : Response) (body : PyVal) :
    BaseFailHandler.init u1 m1 b1 hd1 = BaseFailHandler.init u2 m2 b2 hd2
    ∧ ExceptionFailHandler.handle (BaseFailHandler.init u1 m1 b1 hd1) env
        r body
      = ExceptionFailHandler.handle (BaseFailHandler.init u2 m2 b2 hd2)
          env r body
    ∧ NoneFailHandler.handle (BaseFailHandler.init u1 m1 b1 hd1) r body
      = NoneFailHandler.handle (BaseFailHandler.init u2 m2 b2 hd2) r body
    ∧ DictFailHandler.handle (BaseFailHandler.init u1 m1 b1 hd1) r body
      = DictFailHandler.handle (BaseFailHandler.init u2 m2 b2 hd2) r body
    ∧ MultiExceptionFailHandler.handle (BaseFailHandler.init u1 m1 b1 hd1)
        env r body
      = MultiExceptionFailHandler.handle
          (BaseFailHandler.init u2 m2 b2 hd2) env r body :=
  ⟨rfl, rfl, rfl, rfl, rfl⟩

/-- C10: when the debug flag sampled at construction is truthy, the
error's string form is the message followed by the received body text, so
it contains both; when the flag is falsy it is exactly the message. -/
theorem C10_debug_rendering (e : APIError) :
    (truthy e.debug = true →
      e.toStr = e.msg ++ "\nReceived body:\n" ++ pyStr e.body)
    ∧ (truthy e.debug = false → e.toStr = e.msg) := by
  refine ⟨fun h => ?_, fun h => ?_⟩ <;> simp [APIError.toStr, h]

/-- C10 witness: rendering evaluated for an error built with the debug
variable set to "1" (truthy), and so including the body text. -/
theorem C10_debug_rendering_witness :
    truthy (APIError.fromEnv (Option.some "1") "404: resp"
        (PyVal.str "oops")).debug = true
    ∧ (APIError.fromEnv (Option.some "1") "404: resp"
        (PyVal.str "oops")).toStr
      = "404: resp" ++ "\nReceived body:\n" ++ pyStr (PyVal.str "oops") :=
  ⟨by decide,
    (C10_debug_rendering (APIError.fromEnv (Option.some "1") "404: resp"
      (PyVal.str "oops"))).1 (by decide)⟩

end PistonMiniClient
